import Mathlib

/-!
Verification of `nemo/collections/nlp/models/nlp_model.py` (class `NLPModel`).

The file under study overrides four PyTorch-Lightning lifecycle hooks:
`init_ddp_connection`, `configure_ddp`, `setup`, `on_before_backward`.
We embed each hook as a pure Lean function.  Reads and writes of the
process-wide `AppState` singleton are made explicit by threading an
`AppState` value in and out of every hook; calls into external libraries
(PyTorch-Lightning base classes, `megatron.mpu`, `torch.distributed`,
`torch.utils.data`) are recorded in an event trace and their return values
are supplied by an abstract environment `Env` of uninterpreted functions.
-/

/-- Abstract handle for a `torch.distributed` process group. -/
abbrev ProcGroup := Nat

/-- Abstract handle for a `LightningModule` being wrapped. -/
abbrev PyModel := Nat

/-- The value `self.bert_model` can hold: Python `None`, a
`MegatronBertEncoder` (which stores its `_restore_path`), or any other
encoder object. -/
inductive BertModel where
  | pynone : BertModel
  | megatron (restorePath : String) : BertModel
  | otherEncoder (tag : Nat) : BertModel
deriving DecidableEq, Repr

/-- The Python `isinstance(self.bert_model, MegatronBertEncoder)` test. -/
def BertModel.isMegatron : BertModel → Bool
  | BertModel.megatron _ => true
  | _ => false

/-- A training dataloader: the code only reads its `.dataset` attribute and
replaces the whole loader, so we keep the dataset handle plus an opaque tag. -/
structure DataLoader where
  dataset : Nat
  tag : Nat
deriving DecidableEq, Repr

/-- The arguments the code passes to
`torch.utils.data.distributed.DistributedSampler`. -/
structure DistributedSampler where
  dataset : Nat
  num_replicas : Nat
  rank : Option Nat
deriving DecidableEq, Repr

/-- Modelled from the spec: the externally-defined, process-wide singleton
(`AppState`) holding "rank assignments, group handles".  Its class definition
is not part of the studied file; we model exactly the five fields the file
reads or writes, and abstract every remaining field of the singleton into
`other_fields` so that frame claims can be stated. -/
structure AppState where
  model_parallel_size : Option Nat
  model_parallel_group : Option ProcGroup
  data_parallel_group : Option ProcGroup
  model_parallel_rank : Option Nat
  data_parallel_rank : Option Nat
  other_fields : Nat
deriving DecidableEq, Repr

/-- The attributes of the `NLPModel` instance that the four hooks touch. -/
structure SelfState where
  bert_model : BertModel
  train_dl : DataLoader
deriving DecidableEq, Repr

/-- Python exceptions that can terminate a hook: the `NotImplementedError`
explicitly raised in `setup`, and the `IndexError` that `device_ids[0]`
raises on an empty list in `configure_ddp`. -/
inductive PyError where
  | notImplementedError (msg : String) : PyError
  | indexError : PyError
deriving DecidableEq, Repr

/-- The value returned by `configure_ddp`: either the model wrapped in a
`LightningDistributedDataParallel` built from the recorded constructor
arguments, or whatever the base-class default returned. -/
inductive ConfiguredModel where
  | ldp (model : PyModel) (deviceIds : List Nat) (outputDevice : Nat)
      (processGroup : Option ProcGroup) : ConfiguredModel
  | baseResult (v : Nat) : ConfiguredModel
deriving DecidableEq, Repr

/-- The value returned by `on_before_backward`: Python `None`, or the
gradient-norm dictionary produced by the base-class default. -/
inductive PyVal where
  | pynone : PyVal
  | gradDict (d : Nat) : PyVal
deriving DecidableEq, Repr

/-- Externally observable calls the hooks make, in order. -/
inductive CallEvent where
  | baseInitDdpConnection (globalRank worldSize : Nat) (slurm : Bool) : CallEvent
  | mpuInitModelParallel (size : Nat) : CallEvent
  | mpuGetModelParallelGroup : CallEvent
  | mpuGetDataParallelGroup : CallEvent
  | torchGetRank (g : ProcGroup) : CallEvent
  | wrapLdp : CallEvent
  | baseConfigureDdp : CallEvent
  | baseSetup : CallEvent
  | restoreWeights (path : String) : CallEvent
  | makeSampler (dataset numReplicas : Nat) (rank : Option Nat) : CallEvent
  | replaceSampler : CallEvent
  | bertParameters : CallEvent
  | baseOnBeforeBackward (batchIdx optId : Nat) : CallEvent
deriving DecidableEq, Repr

/-- Abstract environment supplying the return values of external calls:
the groups `mpu.get_model_parallel_group` / `mpu.get_data_parallel_group`
report after `mpu.initialize_model_parallel` ran with a given size, the
rank `torch.distributed.get_rank` reports for a group, the base-class
defaults, the trainer's `replace_sampler`, and Python's string rendering
of the encoder object. -/
structure Env where
  mpuModelParallelGroup : Nat → ProcGroup
  mpuDataParallelGroup : Nat → ProcGroup
  torchGetRank : ProcGroup → Nat
  baseConfigureDdp : PyModel → List Nat → ConfiguredModel
  baseOnBeforeBackward : Nat → Nat → PyVal
  replaceSampler : DataLoader → DistributedSampler → DataLoader
  bertStr : BertModel → String

namespace NLPModel

/-- `NLPModel.init_ddp_connection`: always calls the base-class
`LightningModule.init_ddp_connection`, then, if
`app_state.model_parallel_size is not None` and
`app_state.model_parallel_group is None`, initializes Megatron model
parallelism and stores the two groups and two ranks on the singleton.
Returns the updated singleton and the trace of external calls. -/
def init_ddp_connection (env : Env) (st : AppState)
    (globalRank worldSize : Nat) (slurm : Bool) : AppState × List CallEvent :=
  let baseEv := CallEvent.baseInitDdpConnection globalRank worldSize slurm
  match st.model_parallel_size with
  | some sz =>
      match st.model_parallel_group with
      | none =>
          let mpg := env.mpuModelParallelGroup sz
          let dpg := env.mpuDataParallelGroup sz
          ({ st with
              model_parallel_group := some mpg
              data_parallel_group := some dpg
              model_parallel_rank := some (env.torchGetRank mpg)
              data_parallel_rank := some (env.torchGetRank dpg) },
           [baseEv, CallEvent.mpuInitModelParallel sz,
            CallEvent.mpuGetModelParallelGroup, CallEvent.mpuGetDataParallelGroup,
            CallEvent.torchGetRank mpg, CallEvent.torchGetRank dpg])
      | some _ => (st, [baseEv])
  | none => (st, [baseEv])

/-- `NLPModel.configure_ddp`: if `app_state.model_parallel_size is not None`,
wraps the model in `LightningDistributedDataParallel(model, device_ids,
output_device=device_ids[0], process_group=app_state.data_parallel_group)`
(raising `IndexError` when `device_ids` is empty); otherwise returns
`LightningModule.configure_ddp(self, model, device_ids)`. -/
def configure_ddp (env : Env) (st : AppState)
    (model : PyModel) (deviceIds : List Nat) :
    Except PyError ConfiguredModel × AppState × List CallEvent :=
  match st.model_parallel_size with
  | some _ =>
      match deviceIds with
      | [] => (Except.error PyError.indexError, st, [])
      | d0 :: _ =>
          (Except.ok (ConfiguredModel.ldp model deviceIds d0 st.data_parallel_group),
           st, [CallEvent.wrapLdp])
  | none =>
      (Except.ok (env.baseConfigureDdp model deviceIds), st,
       [CallEvent.baseConfigureDdp])

/-- `NLPModel.setup`: when `stage == 'fit'` and
`app_state.model_parallel_size is not None`, either restores the Megatron
encoder's weights from its stored `_restore_path` and replaces
`self._train_dl` via `self._trainer.replace_sampler` with a
`DistributedSampler(self._train_dl.dataset,
num_replicas=app_state.model_parallel_size,
rank=app_state.data_parallel_rank)`, or raises `NotImplementedError` if the
encoder is not a `MegatronBertEncoder`.  In every other case it does
nothing. -/
def setup (env : Env) (st : AppState) (self : SelfState) (stage : String) :
    Except PyError SelfState × AppState × List CallEvent :=
  if stage = "fit" then
    match st.model_parallel_size with
    | some sz =>
        match self.bert_model with
        | BertModel.megatron path =>
            let sampler : DistributedSampler :=
              { dataset := self.train_dl.dataset
                num_replicas := sz
                rank := st.data_parallel_rank }
            let newDl := env.replaceSampler self.train_dl sampler
            (Except.ok { self with train_dl := newDl }, st,
             [CallEvent.restoreWeights path,
              CallEvent.makeSampler self.train_dl.dataset sz st.data_parallel_rank,
              CallEvent.replaceSampler])
        | b =>
            (Except.error (PyError.notImplementedError
               ("The BERT encoder: " ++ env.bertStr b
                 ++ " does not support model parallelism yet.")), st, [])
    | none => (Except.ok self, st, [])
  else (Except.ok self, st, [])

/-- `NLPModel.on_before_backward`: when
`app_state.model_parallel_size is not None` the body only reads
`self.bert_model.parameters()` if the encoder is a Megatron one (the
clipping code is commented out) and falls off the end, returning Python
`None`; otherwise it returns
`TrainLoop.on_before_backward(self, batch_idx, optimizer)`. -/
def on_before_backward (env : Env) (st : AppState) (self : SelfState)
    (batchIdx optimizer : Nat) : PyVal × AppState × List CallEvent :=
  match st.model_parallel_size with
  | some _ =>
      if self.bert_model.isMegatron then
        (PyVal.pynone, st, [CallEvent.bertParameters])
      else
        (PyVal.pynone, st, [])
  | none =>
      (env.baseOnBeforeBackward batchIdx optimizer, st,
       [CallEvent.baseOnBeforeBackward batchIdx optimizer])

end NLPModel

/-- Events that belong to a forward to a base-class default implementation. -/
def CallEvent.isBaseForward : CallEvent → Bool
  | CallEvent.baseInitDdpConnection _ _ _ => true
  | CallEvent.baseConfigureDdp => true
  | CallEvent.baseSetup => true
  | CallEvent.baseOnBeforeBackward _ _ => true
  | _ => false

/-- Events that belong to a model-parallel code path. -/
def CallEvent.isMpPath : CallEvent → Bool
  | CallEvent.mpuInitModelParallel _ => true
  | CallEvent.mpuGetModelParallelGroup => true
  | CallEvent.mpuGetDataParallelGroup => true
  | CallEvent.torchGetRank _ => true
  | CallEvent.wrapLdp => true
  | CallEvent.restoreWeights _ => true
  | CallEvent.makeSampler _ _ _ => true
  | CallEvent.replaceSampler => true
  | CallEvent.bertParameters => true
  | _ => false

/-- A call took the model-parallel code path. -/
def takesMpPath (tr : List CallEvent) : Bool := tr.any CallEvent.isMpPath

/-- A call forwarded to a base-class default implementation. -/
def takesBaseForward (tr : List CallEvent) : Bool := tr.any CallEvent.isBaseForward

/-- The call took exactly one of the two paths. -/
def exactlyOnePath (tr : List CallEvent) : Bool :=
  xor (takesMpPath tr) (takesBaseForward tr)

/-- The call took at most one of the two paths. -/
def atMostOnePath (tr : List CallEvent) : Bool :=
  !(takesMpPath tr && takesBaseForward tr)

/-- A concrete environment used to evaluate the hooks on sample inputs. -/
def envA : Env where
  mpuModelParallelGroup := fun n => n + 100
  mpuDataParallelGroup := fun n => n + 200
  torchGetRank := fun g => g % 7
  baseConfigureDdp := fun m ids => ConfiguredModel.baseResult (m + ids.length)
  baseOnBeforeBackward := fun b o => PyVal.gradDict (b + o)
  replaceSampler := fun dl s => { dataset := dl.dataset, tag := dl.tag + s.num_replicas }
  bertStr := fun _ => "encoder"

/-- A sample singleton state with model parallelism requested and the
model-parallel group not yet created. -/
def stUninit : AppState :=
  { model_parallel_size := some 2
    model_parallel_group := none
    data_parallel_group := none
    model_parallel_rank := none
    data_parallel_rank := none
    other_fields := 7 }

/-- A sample singleton state with model parallelism not requested. -/
def stNoMp : AppState :=
  { model_parallel_size := none
    model_parallel_group := none
    data_parallel_group := none
    model_parallel_rank := none
    data_parallel_rank := none
    other_fields := 7 }

/-- A sample singleton state with model parallelism requested and the
model-parallel group already created. -/
def stInited : AppState :=
  { model_parallel_size := some 2
    model_parallel_group := some 102
    data_parallel_group := some 202
    model_parallel_rank := some 4
    data_parallel_rank := some 6
    other_fields := 7 }

/-- Sample model attributes with a Megatron encoder. -/
def selfMegatron : SelfState :=
  { bert_model := BertModel.megatron "/ckpt/mp.pt", train_dl := { dataset := 11, tag := 3 } }

/-- Sample model attributes with a non-Megatron encoder. -/
def selfOther : SelfState :=
  { bert_model := BertModel.otherEncoder 5, train_dl := { dataset := 11, tag := 3 } }

/-- C1: the only error `setup` raises is a `NotImplementedError`, and it is
raised exactly when `stage = "fit"`, the singleton's `model_parallel_size`
is not `None`, and `self.bert_model` is not a `MegatronBertEncoder`; in
every other combination `setup` raises no error. -/
theorem setup_raises_notImplemented_iff (env : Env) (st : AppState)
    (self : SelfState) (stage : String) :
    ((∃ e, (NLPModel.setup env st self stage).1 = Except.error e)
      ↔ (stage = "fit" ∧ st.model_parallel_size ≠ none
          ∧ self.bert_model.isMegatron = false))
    ∧ (∀ e, (NLPModel.setup env st self stage).1 = Except.error e →
        e = PyError.notImplementedError
              ("The BERT encoder: " ++ env.bertStr self.bert_model
                ++ " does not support model parallelism yet.")) := by
  unfold NLPModel.setup
  by_cases hs : stage = "fit"
  · cases hmp : st.model_parallel_size with
    | none => simp [hs, hmp]
    | some sz =>
        cases hb : self.bert_model <;>
          simp [hs, hmp, hb, BertModel.isMegatron]
  · simp [hs]

/-- Witness for C1 at a concrete call: `setup` raises on `"fit"` with model
parallelism requested and a non-Megatron encoder. -/
theorem setup_raises_notImplemented_iff_witness :
    ∃ e, (NLPModel.setup envA stUninit selfOther "fit").1 = Except.error e :=
  (setup_raises_notImplemented_iff envA stUninit selfOther "fit").1.mpr
    ⟨rfl, by decide, by decide⟩

/-- C3: when model parallelism is not requested, `configure_ddp` returns
exactly the base-class default `LightningModule.configure_ddp(self, model,
device_ids)` and `on_before_backward` returns exactly the default
`TrainLoop.on_before_backward(self, batch_idx, optimizer)`. -/
theorem default_paths_return_base_values (env : Env) (st : AppState)
    (self : SelfState) (model : PyModel) (ids : List Nat) (bi opt : Nat)
    (h : st.model_parallel_size = none) :
    (NLPModel.configure_ddp env st model ids).1
        = Except.ok (env.baseConfigureDdp model ids)
    ∧ (NLPModel.on_before_backward env st self bi opt).1
        = env.baseOnBeforeBackward bi opt := by
  unfold NLPModel.configure_ddp NLPModel.on_before_backward
  simp [h]

/-- Witness for C3 at a concrete call with `model_parallel_size = None`. -/
theorem default_paths_return_base_values_witness :
    (NLPModel.configure_ddp envA stNoMp 3 [0, 1]).1
        = Except.ok (envA.baseConfigureDdp 3 [0, 1])
    ∧ (NLPModel.on_before_backward envA stNoMp selfMegatron 5 9).1
        = envA.baseOnBeforeBackward 5 9 :=
  default_paths_return_base_values envA stNoMp selfMegatron 3 [0, 1] 5 9 rfl

/-- C4: when model parallelism is requested and the model-parallel group is
uninitialized, `init_ddp_connection` stores on the singleton the groups the
external library reports after `mpu.initialize_model_parallel(size)` (whose
invocation the trace records) and the ranks `torch.distributed.get_rank`
reports for those groups. -/
theorem init_ddp_connection_initializes_groups (env : Env) (st : AppState)
    (gr ws : Nat) (slurm : Bool) (n : Nat)
    (h1 : st.model_parallel_size = some n)
    (h2 : st.model_parallel_group = none) :
    (NLPModel.init_ddp_connection env st gr ws slurm).1.model_parallel_group
        = some (env.mpuModelParallelGroup n)
    ∧ (NLPModel.init_ddp_connection env st gr ws slurm).1.data_parallel_group
        = some (env.mpuDataParallelGroup n)
    ∧ (NLPModel.init_ddp_connection env st gr ws slurm).1.model_parallel_rank
        = some (env.torchGetRank (env.mpuModelParallelGroup n))
    ∧ (NLPModel.init_ddp_connection env st gr ws slurm).1.data_parallel_rank
        = some (env.torchGetRank (env.mpuDataParallelGroup n))
    ∧ CallEvent.mpuInitModelParallel n
        ∈ (NLPModel.init_ddp_connection env st gr ws slurm).2 := by
  unfold NLPModel.init_ddp_connection
  simp [h1, h2]

/-- Witness for C4 at a concrete uninitialized model-parallel state. -/
theorem init_ddp_connection_initializes_groups_witness :
    (NLPModel.init_ddp_connection envA stUninit 0 4 true).1.model_parallel_group
        = some (envA.mpuModelParallelGroup 2)
    ∧ (NLPModel.init_ddp_connection envA stUninit 0 4 true).1.data_parallel_group
        = some (envA.mpuDataParallelGroup 2)
    ∧ (NLPModel.init_ddp_connection envA stUninit 0 4 true).1.model_parallel_rank
        = some (envA.torchGetRank (envA.mpuModelParallelGroup 2))
    ∧ (NLPModel.init_ddp_connection envA stUninit 0 4 true).1.data_parallel_rank
        = some (envA.torchGetRank (envA.mpuDataParallelGroup 2))
    ∧ CallEvent.mpuInitModelParallel 2
        ∈ (NLPModel.init_ddp_connection envA stUninit 0 4 true).2 :=
  init_ddp_connection_initializes_groups envA stUninit 0 4 true 2 rfl rfl

/-- C6: when model parallelism is requested, `configure_ddp` returns the
given model wrapped in `LightningDistributedDataParallel` with the given
`device_ids`, `output_device` the first element of `device_ids`, and
`process_group` the singleton's `data_parallel_group`. -/
theorem configure_ddp_mp_wraps (env : Env) (st : AppState) (model : PyModel)
    (d0 : Nat) (rest : List Nat) (n : Nat)
    (h : st.model_parallel_size = some n) :
    (NLPModel.configure_ddp env st model (d0 :: rest)).1
      = Except.ok
          (ConfiguredModel.ldp model (d0 :: rest) d0 st.data_parallel_group) := by
  unfold NLPModel.configure_ddp
  simp [h]

/-- Witness for C6 at a concrete model-parallel call. -/
theorem configure_ddp_mp_wraps_witness :
    (NLPModel.configure_ddp envA stInited 3 [4, 5]).1
      = Except.ok
          (ConfiguredModel.ldp 3 [4, 5] 4 stInited.data_parallel_group) :=
  configure_ddp_mp_wraps envA stInited 3 4 [5] 2 rfl

/-- C9: in `setup`'s model-parallel path the encoder's weights are restored
from its stored restore path, and `self._train_dl` becomes the result of the
trainer's `replace_sampler` applied to a `DistributedSampler` over the
training dataset built with `num_replicas = model_parallel_size` and
`rank = data_parallel_rank`. -/
theorem setup_mp_path_restores_and_resamples (env : Env) (st : AppState)
    (self : SelfState) (n : Nat) (path : String)
    (hmp : st.model_parallel_size = some n)
    (hb : self.bert_model = BertModel.megatron path) :
    (NLPModel.setup env st self "fit").1
      = Except.ok
          { self with
              train_dl := env.replaceSampler self.train_dl
                { dataset := self.train_dl.dataset
                  num_replicas := n
                  rank := st.data_parallel_rank } }
    ∧ CallEvent.restoreWeights path ∈ (NLPModel.setup env st self "fit").2.2
    ∧ CallEvent.makeSampler self.train_dl.dataset n st.data_parallel_rank
        ∈ (NLPModel.setup env st self "fit").2.2 := by
  unfold NLPModel.setup
  simp [hmp, hb]

/-- Witness for C9 at a concrete model-parallel fit call with a Megatron
encoder. -/
theorem setup_mp_path_restores_and_resamples_witness :
    (NLPModel.setup envA stInited selfMegatron "fit").1
      = Except.ok
          { selfMegatron with
              train_dl := envA.replaceSampler selfMegatron.train_dl
                { dataset := selfMegatron.train_dl.dataset
                  num_replicas := 2
                  rank := stInited.data_parallel_rank } }
    ∧ CallEvent.restoreWeights "/ckpt/mp.pt"
        ∈ (NLPModel.setup envA stInited selfMegatron "fit").2.2
    ∧ CallEvent.makeSampler selfMegatron.train_dl.dataset 2
          stInited.data_parallel_rank
        ∈ (NLPModel.setup envA stInited selfMegatron "fit").2.2 :=
  setup_mp_path_restores_and_resamples envA stInited selfMegatron 2
    "/ckpt/mp.pt" rfl rfl

/-- C10: with model parallelism requested, `configure_ddp` indexes
`device_ids[0]`: the call fails with `IndexError` exactly on the empty
list and succeeds on every non-empty list; with model parallelism not
requested this override never indexes `device_ids`, returning the base
default even on the empty list. -/
theorem configure_ddp_index_safety (env : Env) (st : AppState)
    (model : PyModel) (ids : List Nat) (n : Nat) :
    (st.model_parallel_size = some n →
      ((NLPModel.configure_ddp env st model []).1
          = Except.error PyError.indexError
        ∧ (ids ≠ [] →
            ∃ r, (NLPModel.configure_ddp env st model ids).1 = Except.ok r)))
    ∧ (st.model_parallel_size = none →
        (NLPModel.configure_ddp env st model ids).1
          = Except.ok (env.baseConfigureDdp model ids)) := by
  constructor
  · intro h
    constructor
    · unfold NLPModel.configure_ddp
      simp [h]
    · intro hne
      cases ids with
      | nil => exact absurd rfl hne
      | cons d0 rest =>
          refine ⟨ConfiguredModel.ldp model (d0 :: rest) d0 st.data_parallel_group, ?_⟩
          unfold NLPModel.configure_ddp
          simp [h]
  · intro h
    unfold NLPModel.configure_ddp
    simp [h]

/-- Witness for C10: concrete calls showing the empty-list failure under
model parallelism and the total base path without it. -/
theorem configure_ddp_index_safety_witness :
    ((NLPModel.configure_ddp envA stInited 3 []).1
        = Except.error PyError.indexError
      ∧ ∃ r, (NLPModel.configure_ddp envA stInited 3 [4]).1 = Except.ok r)
    ∧ (NLPModel.configure_ddp envA stNoMp 3 []).1
        = Except.ok (envA.baseConfigureDdp 3 []) :=
  ⟨⟨((configure_ddp_index_safety envA stInited 3 [4] 2).1 rfl).1,
    ((configure_ddp_index_safety envA stInited 3 [4] 2).1 rfl).2 (by decide)⟩,
   (configure_ddp_index_safety envA stNoMp 3 [] 2).2 rfl⟩

/-- C5: `mpu.initialize_model_parallel` is invoked only from a state where
the singleton's `model_parallel_size` is not `None` and its
`model_parallel_group` is `None`; no other hook ever invokes it, so no hook
performs model-parallel initialization when model parallelism is not
requested. -/
theorem mpu_init_only_when_uninitialized (env : Env) (st : AppState)
    (gr ws : Nat) (slurm : Bool) (model : PyModel) (ids : List Nat)
    (self : SelfState) (stage : String) (bi opt s : Nat) :
    (CallEvent.mpuInitModelParallel s
        ∈ (NLPModel.init_ddp_connection env st gr ws slurm).2
      → st.model_parallel_size ≠ none ∧ st.model_parallel_group = none)
    ∧ CallEvent.mpuInitModelParallel s
        ∉ (NLPModel.configure_ddp env st model ids).2.2
    ∧ CallEvent.mpuInitModelParallel s
        ∉ (NLPModel.setup env st self stage).2.2
    ∧ CallEvent.mpuInitModelParallel s
        ∉ (NLPModel.on_before_backward env st self bi opt).2.2 := by
  refine ⟨?_, ?_, ?_, ?_⟩
  · intro hmem
    unfold NLPModel.init_ddp_connection at hmem
    cases hmp : st.model_parallel_size with
    | none => simp [hmp] at hmem
    | some sz =>
        cases hg : st.model_parallel_group with
        | none => exact ⟨by simp [hmp], rfl⟩
        | some g => simp [hmp, hg] at hmem
  · unfold NLPModel.configure_ddp
    cases st.model_parallel_size <;> cases ids <;> simp
  · unfold NLPModel.setup
    by_cases hs : stage = "fit"
    · cases st.model_parallel_size with
      | none => simp [hs]
      | some sz => cases self.bert_model <;> simp [hs]
    · simp [hs]
  · unfold NLPModel.on_before_backward
    cases st.model_parallel_size with
    | none => simp
    | some sz => by_cases hb : self.bert_model.isMegatron <;> simp [hb]

/-- Witness for C5: at a concrete call where the group already exists, a
membership of `mpu.initialize_model_parallel` in the trace would force the
uninitialized-state precondition (and the other hooks' traces never contain
it). -/
theorem mpu_init_only_when_uninitialized_witness :
    CallEvent.mpuInitModelParallel 2
        ∉ (NLPModel.setup envA stInited selfMegatron "fit").2.2
    ∧ CallEvent.mpuInitModelParallel 2
        ∉ (NLPModel.configure_ddp envA stInited 3 [4]).2.2
    ∧ CallEvent.mpuInitModelParallel 2
        ∉ (NLPModel.on_before_backward envA stInited selfMegatron 1 1).2.2 :=
  ⟨(mpu_init_only_when_uninitialized envA stInited 0 4 true 3 [4]
      selfMegatron "fit" 1 1 2).2.2.1,
   (mpu_init_only_when_uninitialized envA stInited 0 4 true 3 [4]
      selfMegatron "fit" 1 1 2).2.1,
   (mpu_init_only_when_uninitialized envA stInited 0 4 true 3 [4]
      selfMegatron "fit" 1 1 2).2.2.2⟩

/-- C7: among the four hooks only `init_ddp_connection` writes to the
singleton, touching at most the four group and rank fields (its
`model_parallel_size` and all remaining fields are preserved) and writing
only when model parallelism is requested and the group is uninitialized;
`configure_ddp`, `setup`, and `on_before_backward` return the singleton
unchanged on every call. -/
theorem hooks_singleton_frame (env : Env) (st : AppState)
    (gr ws : Nat) (slurm : Bool) (model : PyModel) (ids : List Nat)
    (self : SelfState) (stage : String) (bi opt : Nat) :
    ((NLPModel.init_ddp_connection env st gr ws slurm).1.model_parallel_size
        = st.model_parallel_size
      ∧ (NLPModel.init_ddp_connection env st gr ws slurm).1.other_fields
          = st.other_fields)
    ∧ (¬(st.model_parallel_size ≠ none ∧ st.model_parallel_group = none) →
        (NLPModel.init_ddp_connection env st gr ws slurm).1 = st)
    ∧ (NLPModel.configure_ddp env st model ids).2.1 = st
    ∧ (NLPModel.setup env st self stage).2.1 = st
    ∧ (NLPModel.on_before_backward env st self bi opt).2.1 = st := by
  refine ⟨?_, ?_, ?_, ?_, ?_⟩
  · unfold NLPModel.init_ddp_connection
    cases hmp : st.model_parallel_size with
    | none => simp [hmp]
    | some sz => cases hg : st.model_parallel_group <;> simp [hmp, hg]
  · intro hno
    unfold NLPModel.init_ddp_connection
    cases hmp : st.model_parallel_size with
    | none => simp
    | some sz =>
        cases hg : st.model_parallel_group with
        | none => exact absurd ⟨by simp [hmp], hg⟩ hno
        | some g => simp
  · unfold NLPModel.configure_ddp
    cases st.model_parallel_size <;> cases ids <;> simp
  · unfold NLPModel.setup
    by_cases hs : stage = "fit"
    · cases st.model_parallel_size with
      | none => simp [hs]
      | some sz => cases self.bert_model <;> simp [hs]
    · simp [hs]
  · unfold NLPModel.on_before_backward
    cases st.model_parallel_size with
    | none => simp
    | some sz => by_cases hb : self.bert_model.isMegatron <;> simp [hb]

/-- Witness for C7: at a concrete already-initialized state every hook,
`init_ddp_connection` included, leaves the singleton unchanged. -/
theorem hooks_singleton_frame_witness :
    (NLPModel.init_ddp_connection envA stInited 0 4 true).1 = stInited
    ∧ (NLPModel.configure_ddp envA stInited 3 [4]).2.1 = stInited
    ∧ (NLPModel.setup envA stInited selfMegatron "fit").2.1 = stInited
    ∧ (NLPModel.on_before_backward envA stInited selfMegatron 1 1).2.1
        = stInited :=
  ⟨(hooks_singleton_frame envA stInited 0 4 true 3 [4] selfMegatron "fit"
      1 1).2.1 (by decide),
   (hooks_singleton_frame envA stInited 0 4 true 3 [4] selfMegatron "fit"
      1 1).2.2.1,
   (hooks_singleton_frame envA stInited 0 4 true 3 [4] selfMegatron "fit"
      1 1).2.2.2.1,
   (hooks_singleton_frame envA stInited 0 4 true 3 [4] selfMegatron "fit"
      1 1).2.2.2.2⟩

/-- C8: `init_ddp_connection` is idempotent on the singleton: from a state
whose `model_parallel_group` is already set, or where model parallelism is
not requested, it changes no field and never calls
`mpu.initialize_model_parallel`; consequently a second call directly after
any first call changes nothing. -/
theorem init_ddp_connection_idempotent (env : Env) (st st0 : AppState)
    (gr ws : Nat) (slurm : Bool)
    (h : st.model_parallel_group ≠ none ∨ st.model_parallel_size = none) :
    (NLPModel.init_ddp_connection env st gr ws slurm).1 = st
    ∧ (∀ s, CallEvent.mpuInitModelParallel s
          ∉ (NLPModel.init_ddp_connection env st gr ws slurm).2)
    ∧ (NLPModel.init_ddp_connection env
          (NLPModel.init_ddp_connection env st0 gr ws slurm).1 gr ws slurm).1
        = (NLPModel.init_ddp_connection env st0 gr ws slurm).1 := by
  refine ⟨?_, ?_, ?_⟩
  · unfold NLPModel.init_ddp_connection
    cases hmp : st.model_parallel_size with
    | none => simp
    | some sz =>
        cases hg : st.model_parallel_group with
        | none =>
            rcases h with h | h
            · exact absurd hg h
            · simp [h] at hmp
        | some g => simp
  · intro s
    unfold NLPModel.init_ddp_connection
    cases hmp : st.model_parallel_size with
    | none => simp
    | some sz =>
        cases hg : st.model_parallel_group with
        | none =>
            rcases h with h | h
            · exact absurd hg h
            · simp [h] at hmp
        | some g => simp
  · unfold NLPModel.init_ddp_connection
    cases hmp : st0.model_parallel_size with
    | none => simp [hmp]
    | some sz =>
        cases hg : st0.model_parallel_group with
        | none => simp [hmp, hg]
        | some g => simp [hmp, hg]

/-- Witness for C8 at a concrete already-initialized state. -/
theorem init_ddp_connection_idempotent_witness :
    (NLPModel.init_ddp_connection envA stInited 0 4 true).1 = stInited
    ∧ (NLPModel.init_ddp_connection envA
          (NLPModel.init_ddp_connection envA stUninit 0 4 true).1 0 4 true).1
        = (NLPModel.init_ddp_connection envA stUninit 0 4 true).1 :=
  ⟨(init_ddp_connection_idempotent envA stInited stUninit 0 4 true
      (Or.inl (by decide))).1,
   (init_ddp_connection_idempotent envA stInited stUninit 0 4 true
      (Or.inl (by decide))).2.2⟩

/-- C2 counterexample: `init_ddp_connection`, called with model parallelism
requested and the group uninitialized, both forwards to the base-class
default and runs the model-parallel path, so it does not take exactly one
of the two paths. -/
theorem hooks_exactly_one_path_cex :
    takesMpPath (NLPModel.init_ddp_connection envA stUninit 0 4 true).2 = true
    ∧ takesBaseForward
        (NLPModel.init_ddp_connection envA stUninit 0 4 true).2 = true
    ∧ exactlyOnePath
        (NLPModel.init_ddp_connection envA stUninit 0 4 true).2 = false := by
  decide

/-- C2 amended: `configure_ddp`, `setup`, and `on_before_backward` each take
at most one of the two paths on every call, while `init_ddp_connection`
always forwards to the base-class default and additionally takes the
model-parallel path exactly when model parallelism is requested and the
model-parallel group is uninitialized. -/
theorem hooks_path_discipline (env : Env) (st : AppState)
    (gr ws : Nat) (slurm : Bool) (model : PyModel) (ids : List Nat)
    (self : SelfState) (stage : String) (bi opt : Nat) :
    atMostOnePath (NLPModel.configure_ddp env st model ids).2.2 = true
    ∧ atMostOnePath (NLPModel.setup env st self stage).2.2 = true
    ∧ atMostOnePath (NLPModel.on_before_backward env st self bi opt).2.2 = true
    ∧ takesBaseForward (NLPModel.init_ddp_connection env st gr ws slurm).2 = true
    ∧ (takesMpPath (NLPModel.init_ddp_connection env st gr ws slurm).2 = true
        ↔ (st.model_parallel_size ≠ none ∧ st.model_parallel_group = none)) := by
  refine ⟨?_, ?_, ?_, ?_, ?_⟩
  · unfold NLPModel.configure_ddp
    cases hmp : st.model_parallel_size <;> cases ids <;>
      simp [atMostOnePath, takesMpPath, takesBaseForward,
        CallEvent.isMpPath, CallEvent.isBaseForward]
  · unfold NLPModel.setup
    by_cases hs : stage = "fit"
    · cases hmp : st.model_parallel_size with
      | none =>
          simp [hs, hmp, atMostOnePath, takesMpPath, takesBaseForward]
      | some sz =>
          cases self.bert_model <;>
            simp [hs, hmp, atMostOnePath, takesMpPath, takesBaseForward,
              CallEvent.isMpPath, CallEvent.isBaseForward]
    · simp [hs, atMostOnePath, takesMpPath, takesBaseForward]
  · unfold NLPModel.on_before_backward
    cases hmp : st.model_parallel_size with
    | none =>
        simp [atMostOnePath, takesMpPath, takesBaseForward,
          CallEvent.isMpPath, CallEvent.isBaseForward]
    | some sz =>
        by_cases hb : self.bert_model.isMegatron <;>
          simp [hb, atMostOnePath, takesMpPath, takesBaseForward,
            CallEvent.isMpPath, CallEvent.isBaseForward]
  · unfold NLPModel.init_ddp_connection
    cases hmp : st.model_parallel_size with
    | none =>
        simp [takesBaseForward, CallEvent.isBaseForward]
    | some sz =>
        cases hg : st.model_parallel_group <;>
          simp [takesBaseForward, CallEvent.isBaseForward]
  · unfold NLPModel.init_ddp_connection
    cases hmp : st.model_parallel_size with
    | none =>
        simp [hmp, takesMpPath, CallEvent.isMpPath]
    | some sz =>
        cases hg : st.model_parallel_group with
        | none =>
            simp [hmp, hg, takesMpPath, CallEvent.isMpPath]
        | some g =>
            simp [hmp, hg, takesMpPath, CallEvent.isMpPath,
              CallEvent.isBaseForward]
